import Mathlib

/-
Verification development for the college-basketball win-probability predictor.
The Python modules are shallowly embedded: dicts become functions from keys to
optional values, floats become exact rationals (reals where the transcendental
sigmoid is involved), and in-place mutation becomes explicit state passing.
-/

namespace CBB

/-- Python `str.lower()`, modelled per character (ASCII case folding). -/
def py_lower (s : String) : String := ⟨s.data.map Char.toLower⟩

/-- Python `str.strip()`: drop leading and trailing whitespace. -/
def py_strip (s : String) : String :=
  ⟨((s.data.dropWhile Char.isWhitespace).reverse.dropWhile Char.isWhitespace).reverse⟩

/-- A value stored in a team stats dict, as seen by `float(v)` conversion:
`num q` is a value that `float` converts (numbers, numeric strings), carried as
its numeric value; `nonNum` is a value on which `float` raises. -/
inductive PyVal where
  | num (q : ℚ)
  | nonNum
deriving DecidableEq

/-- A team stats dict passed to the predictor: key to optional value. -/
abbrev TeamDict := String → Option PyVal

/-- Embedding of `_safe_get` (predictor.py): `d.get(k, default)` followed by a
`float` conversion that falls back to the default on failure. -/
def safe_get (d : TeamDict) (k : String) (default : ℚ := 0) : ℚ :=
  match d k with
  | some (PyVal.num q) => q
  | some PyVal.nonNum => default
  | none => default

/-- Embedding of `_home_advantage_value` (predictor.py): the location string is
stripped and lowercased; "home" gives 1.0, "away" gives -1.0, otherwise 0.0.
The Python `location or ""` None-guard is modelled by taking a plain string. -/
def home_advantage_value (location : String) : ℚ :=
  let loc := py_lower (py_strip location)
  if loc = "home" then 1
  else if loc = "away" then -1
  else 0

/-- The named derived-feature dict `f` built inside `build_features_from_live`
(predictor.py lines 79-113): exactly the 24 named features, `none` for every
other name. All diffs are `A - B` via `_safe_get` with default 0.0. -/
def live_features (A B : TeamDict) (location : String) : String → Option ℚ :=
  fun name =>
  if name = "home_advantage" then some (home_advantage_value location)
  else if name = "OffRating_diff" then some (safe_get A "AdjO" - safe_get B "AdjO")
  else if name = "DefRating_diff" then some (safe_get A "AdjD" - safe_get B "AdjD")
  else if name = "Off_eFG_diff" then some (safe_get A "eFG_off" - safe_get B "eFG_off")
  else if name = "Off_3P%_diff" then some (safe_get A "ThreeP_off" - safe_get B "ThreeP_off")
  else if name = "Off_2P%_diff" then some (safe_get A "TwoP_off" - safe_get B "TwoP_off")
  else if name = "Off_FT%_diff" then some (safe_get A "FT_off" - safe_get B "FT_off")
  else if name = "Off_3PA%_diff" then some (safe_get A "ThreePA_off" - safe_get B "ThreePA_off")
  else if name = "Off_TOV%_diff" then some (safe_get A "TOV_off" - safe_get B "TOV_off")
  else if name = "Off_FTR_diff" then some (safe_get A "FTR_off" - safe_get B "FTR_off")
  else if name = "Off_A%_diff" then some (safe_get A "AST_off" - safe_get B "AST_off")
  else if name = "Off_OR%_diff" then some (safe_get A "OR_off" - safe_get B "OR_off")
  else if name = "Def_eFG_allowed_diff" then some (safe_get A "eFG_def" - safe_get B "eFG_def")
  else if name = "Def_3P%_allowed_diff" then some (safe_get A "ThreeP_def" - safe_get B "ThreeP_def")
  else if name = "Def_2P%_allowed_diff" then some (safe_get A "TwoP_def" - safe_get B "TwoP_def")
  else if name = "Def_FT%_allowed_diff" then some (safe_get A "FT_def" - safe_get B "FT_def")
  else if name = "Def_3PA%_allowed_diff" then some (safe_get A "ThreePA_def" - safe_get B "ThreePA_def")
  else if name = "Def_TOV%_diff" then some (safe_get A "TOV_def" - safe_get B "TOV_def")
  else if name = "Def_DR%_diff" then some (safe_get A "DR_def" - safe_get B "DR_def")
  else if name = "Def_BLK%_diff" then some (safe_get A "BLK_def" - safe_get B "BLK_def")
  else if name = "Def_STL%_diff" then some (safe_get A "STL_def" - safe_get B "STL_def")
  else if name = "Poss_diff" then some (safe_get A "Tempo" - safe_get B "Tempo")
  else if name = "home_x_offrat" then
    some (home_advantage_value location * (safe_get A "AdjO" - safe_get B "AdjO"))
  else if name = "home_x_defrat" then
    some (home_advantage_value location * (safe_get A "AdjD" - safe_get B "AdjD"))
  else none

/-- Embedding of `build_features_from_live` (predictor.py): projects the named
derived-feature dict onto `feature_names` order, filling 0.0 for names not in
the dict, and also returns the dict itself. -/
def build_features_from_live (teamA teamB : TeamDict) (location : String)
    (feature_names : List String) : List ℚ × (String → Option ℚ) :=
  (feature_names.map fun name => ((live_features teamA teamB location) name).getD 0,
   live_features teamA teamB location)

/-- The `logistic_model_meta.json` content: ordered feature names plus an
optional intercept (the code uses `meta.get("intercept", 0.0)`). -/
structure ModelMeta where
  feature_names : List String
  intercept : Option ℚ

/-- Embedding of `load_logistic_artifacts` (predictor.py): the three key-value
tables are aligned to `feature_names` order, defaulting a missing name to 0.0
(coefficient, mean) or 1.0 (scale). The JSON tables are modelled as functions
from names to optional values. -/
def load_logistic_artifacts (meta : ModelMeta)
    (coefs means scales : String → Option ℚ) :
    List String × List ℚ × ℚ × List ℚ × List ℚ :=
  (meta.feature_names,
   meta.feature_names.map (fun f => (coefs f).getD 0),
   meta.intercept.getD 0,
   meta.feature_names.map (fun f => (means f).getD 0),
   meta.feature_names.map (fun f => (scales f).getD 1))

/-- The standardization loop of `predict_logistic_from_artifacts` (predictor.py
lines 144-149): `zip(x_raw, mean_vec, scale_vec)` truncates to the shortest
list, and a zero scale forces the standardized value to 0.0. -/
def standardize (x mean_vec scale_vec : List ℚ) : List ℚ :=
  (x.zip (mean_vec.zip scale_vec)).map fun p =>
    if p.2.2 = 0 then 0 else (p.1 - p.2.1) / p.2.2

/-- The linear-model line of `predict_logistic_from_artifacts` (predictor.py
line 152): `z = intercept + sum(c * v for c, v in zip(coef_vec, x_std))`. -/
def lin_score (coef_vec x_std : List ℚ) (intercept : ℚ) : ℚ :=
  intercept + ((coef_vec.zip x_std).map fun p => p.1 * p.2).sum

/-- Embedding of `_sigmoid` (predictor.py): the numerically stable two-branch
logistic transform. -/
noncomputable def sigmoid (z : ℝ) : ℝ :=
  if 0 ≤ z then 1 / (1 + Real.exp (-z))
  else Real.exp z / (1 + Real.exp z)

/-- The standardize-and-score stage of `predict_logistic_from_artifacts`: raw
vector to the probability pair `(pA, pB = 1 - pA)`. -/
noncomputable def score_probs (x mean_vec scale_vec coef_vec : List ℚ)
    (intercept : ℚ) : ℝ × ℝ :=
  let z := lin_score coef_vec (standardize x mean_vec scale_vec) intercept
  (sigmoid (z : ℝ), 1 - sigmoid (z : ℝ))

/-- `predict_logistic_from_artifacts` applied to an already-loaded artifact
bundle (feature names, coefficients, intercept, means, scales). -/
noncomputable def predict_from_bundle (teamA teamB : TeamDict) (location : String)
    (feature_names : List String) (coef_vec : List ℚ) (intercept : ℚ)
    (mean_vec scale_vec : List ℚ) : ℝ × ℝ × (String → Option ℚ) :=
  let xr := build_features_from_live teamA teamB location feature_names
  let p := score_probs xr.1 mean_vec scale_vec coef_vec intercept
  (p.1, p.2, xr.2)

/-- Embedding of `predict_logistic_from_artifacts` (predictor.py): loads the
artifact bundle from the four tables, builds the live feature vector,
standardizes, scores and returns `(pA, pB, used)`. -/
noncomputable def predict_logistic_from_artifacts (teamA teamB : TeamDict)
    (location : String) (meta : ModelMeta)
    (coefs means scales : String → Option ℚ) : ℝ × ℝ × (String → Option ℚ) :=
  match load_logistic_artifacts meta coefs means scales with
  | (feature_names, coef_vec, intercept, mean_vec, scale_vec) =>
    predict_from_bundle teamA teamB location feature_names coef_vec intercept
      mean_vec scale_vec

/-- A numeric stats/probability dict as used by the adjustor modules. -/
abbrev NumDict := String → Option ℚ

/-- `HOME_COURT_ADV` (adjustments.py). -/
def HOME_COURT_ADV : ℚ := 0.014

/-- One in-place update `d[k] *= c` on a dict: `none` when the key is missing
(Python raises KeyError), otherwise the dict with the scaled value. -/
def mul_key (d : NumDict) (k : String) (c : ℚ) : Option NumDict :=
  (d k).map fun v => fun k2 => if k2 = k then some (v * c) else d k2

/-- Embedding of `apply_home_court` (adjustments.py). The Python function
mutates the two stat dicts in place and returns nothing; it is modelled by
returning the final state of `(teamA_stats, teamB_stats)`, `none` when a
required key is missing. -/
def apply_home_court (teamA_stats teamB_stats : NumDict) (location : String) :
    Option (NumDict × NumDict) :=
  let loc := py_lower location
  if loc = "home" then do
    let a1 ← mul_key teamA_stats "AdjO" (1 + HOME_COURT_ADV)
    let a2 ← mul_key a1 "AdjD" (1 - HOME_COURT_ADV)
    let b1 ← mul_key teamB_stats "AdjO" (1 - HOME_COURT_ADV)
    let b2 ← mul_key b1 "AdjD" (1 + HOME_COURT_ADV)
    some (a2, b2)
  else if loc = "away" then do
    let a1 ← mul_key teamA_stats "AdjO" (1 - HOME_COURT_ADV)
    let a2 ← mul_key a1 "AdjD" (1 + HOME_COURT_ADV)
    let b1 ← mul_key teamB_stats "AdjO" (1 + HOME_COURT_ADV)
    let b2 ← mul_key b1 "AdjD" (1 - HOME_COURT_ADV)
    some (a2, b2)
  else some (teamA_stats, teamB_stats)

/-- `HISTORICAL_UPSETS` (upset_factors.py): seed matchup to underdog rate. -/
def HISTORICAL_UPSETS : List ((ℚ × ℚ) × ℚ) :=
  [((12, 5), 0.35), ((11, 6), 0.40), ((10, 7), 0.39)]

/-- Dict lookup `matchup in HISTORICAL_UPSETS` / `HISTORICAL_UPSETS[matchup]`. -/
def upset_lookup (matchup : ℚ × ℚ) : Option ℚ :=
  (HISTORICAL_UPSETS.find? fun e => e.1 = matchup).map fun e => e.2

/-- The tournament round names recognised by `adjust_for_upset_trends`. -/
def tournament_rounds : List String :=
  ["round1", "round2", "sweet16", "elite8", "final4", "championship"]

/-- A team dict as used by upset_factors.py: a `name` entry (string) and an
optional numeric `Seed` entry. -/
structure UTeam where
  name : String
  seed : Option ℚ

/-- One in-place assignment `w[k] = v` on a probability dict. -/
def set_prob (w : NumDict) (k : String) (v : ℚ) : NumDict :=
  fun k2 => if k2 = k then some v else w k2

/-- Embedding of `adjust_for_upset_trends` (upset_factors.py). The Python
function mutates `win_probs` in place and returns it; it is modelled by
returning the final state of the dict. -/
def adjust_for_upset_trends (teamA teamB : UTeam) (win_probs : NumDict)
    (round_name : String) : NumDict :=
  let seedA := teamA.seed.getD 0
  let seedB := teamB.seed.getD 0
  if seedA ≠ 0 ∧ seedB ≠ 0 ∧ py_lower round_name ∈ tournament_rounds then
    let underdog_seed := if seedA > seedB then seedA else seedB
    let favorite_seed := if seedA > seedB then seedB else seedA
    let underdog_name := if seedA > seedB then teamA.name else teamB.name
    let favorite_name := if seedA > seedB then teamB.name else teamA.name
    match upset_lookup (underdog_seed, favorite_seed) with
    | some upset_rate =>
      let w1 := set_prob win_probs underdog_name
        (max ((win_probs underdog_name).getD 0) upset_rate)
      set_prob w1 favorite_name (1 - (w1 underdog_name).getD 0)
    | none => win_probs
  else win_probs

/-- `EXPERIENCE_THRESHOLD` (experience.py). -/
def EXPERIENCE_THRESHOLD : ℚ := 1

/-- `EXPERIENCE_BONUS` (experience.py). -/
def EXPERIENCE_BONUS : ℚ := 0.02

/-- Embedding of `apply_experience_bonus` (experience.py): reads the two
`Experience` entries (default 0), adds the bonus to the clearly more
experienced team and renormalizes the pair. Rational division stands in for
float division (the renormalizing total is positive for probability inputs). -/
def apply_experience_bonus (teamA teamB : NumDict) (win_prob_A win_prob_B : ℚ) :
    ℚ × ℚ :=
  let expA := (teamA "Experience").getD 0
  let expB := (teamB "Experience").getD 0
  if |expA - expB| ≥ EXPERIENCE_THRESHOLD then
    let a := if expA > expB then win_prob_A + EXPERIENCE_BONUS else win_prob_A
    let b := if expA > expB then win_prob_B else win_prob_B + EXPERIENCE_BONUS
    (a / (a + b), b / (a + b))
  else (win_prob_A, win_prob_B)

/- Concrete inputs used by witnesses and counterexamples. -/

/-- A live team mapping with adjusted offense 110 and no other keys. -/
def teamX : TeamDict := fun k => if k = "AdjO" then some (PyVal.num 110) else none

/-- A live team mapping with adjusted offense 100 and no other keys. -/
def teamY : TeamDict := fun k => if k = "AdjO" then some (PyVal.num 100) else none

/-- The metadata of the end-to-end example artifact bundle. -/
def meta2 : ModelMeta := ⟨["home_advantage", "OffRating_diff"], some 0⟩

/-- Coefficients of the end-to-end example artifact bundle. -/
def coefs2 : String → Option ℚ := fun n =>
  if n = "home_advantage" then some 1 else if n = "OffRating_diff" then some 0 else none

/-- Means of the end-to-end example artifact bundle. -/
def means2 : String → Option ℚ := fun n =>
  if n = "home_advantage" then some 0 else if n = "OffRating_diff" then some 0 else none

/-- Scales of the end-to-end example artifact bundle. -/
def scales2 : String → Option ℚ := fun n =>
  if n = "home_advantage" then some 1 else if n = "OffRating_diff" then some 1 else none

/-- Erase one key from a team dict (used to compare a present-but-non-numeric
value against a genuinely absent key). -/
def dict_erase (d : TeamDict) (k : String) : TeamDict :=
  fun k2 => if k2 = k then none else d k2

/-- A team mapping whose adjusted-offense entry is a non-convertible value. -/
def teamNN : TeamDict := fun k => if k = "AdjO" then some PyVal.nonNum else none

/-- A team mapping with one numeric entry and non-convertible everything else. -/
def teamMix : TeamDict := fun k =>
  if k = "AdjO" then some (PyVal.num 100) else some PyVal.nonNum

/-- Adjustment-module stats for a first concrete team. -/
def statsA : NumDict := fun k =>
  if k = "AdjO" then some 100 else if k = "AdjD" then some 90 else none

/-- Adjustment-module stats for a second concrete team. -/
def statsB : NumDict := fun k =>
  if k = "AdjO" then some 95 else if k = "AdjD" then some 85 else none

/-- A 12-seeded underdog for the upset adjustor. -/
def u12 : UTeam := ⟨"Cinderella", some 12⟩

/-- A 5-seeded favorite for the upset adjustor. -/
def u5 : UTeam := ⟨"Goliath", some 5⟩

/-- An empty win-probability dict. -/
def empty_probs : NumDict := fun _ => none

/-- Metadata for the C6 witness bundle. -/
def meta6 : ModelMeta := ⟨["f1", "f2"], some 0⟩

/-- Coefficient table for the C6 witness bundle: only f1 is present. -/
def coefs6 : String → Option ℚ := fun n => if n = "f1" then some 2 else none

/-- An everywhere-absent artifact table. -/
def table_none : String → Option ℚ := fun _ => none

/- Helper lemmas about the sigmoid. -/

theorem sigmoid_pos (z : ℝ) : 0 < sigmoid z := by
  unfold sigmoid
  split_ifs with h
  · positivity
  · positivity

theorem sigmoid_lt_one (z : ℝ) : sigmoid z < 1 := by
  unfold sigmoid
  split_ifs with h
  · rw [div_lt_one (by positivity)]
    nlinarith [Real.exp_pos (-z)]
  · rw [div_lt_one (by positivity)]
    nlinarith [Real.exp_pos z]

theorem sigmoid_zero_eq : sigmoid 0 = 1 / 2 := by
  unfold sigmoid
  rw [if_pos le_rfl]
  norm_num [Real.exp_zero]

theorem sigmoid_neg_eq (z : ℝ) : sigmoid (-z) = 1 - sigmoid z := by
  unfold sigmoid
  rcases lt_trichotomy z 0 with h | h | h
  · rw [if_pos (by linarith), if_neg (not_le.mpr h), neg_neg]
    have hp : 0 < 1 + Real.exp z := by positivity
    field_simp
  · subst h
    norm_num [Real.exp_zero]
  · rw [if_neg (not_le.mpr (by linarith : -z < 0)), if_pos h.le]
    have hp : 0 < 1 + Real.exp (-z) := by positivity
    field_simp

theorem half_lt_sigmoid (z : ℝ) (h : 0 < z) : 1 / 2 < sigmoid z := by
  unfold sigmoid
  rw [if_pos h.le]
  have h1 : Real.exp (-z) < 1 := Real.exp_lt_one_iff.mpr (by linarith)
  have h2 : 0 < Real.exp (-z) := Real.exp_pos _
  rw [div_lt_div_iff₀ (by norm_num) (by positivity)]
  linarith

/-- C5: the logistic transform is computed in the two-branch numerically stable
form, lies strictly in (0,1), takes value one half at zero, and satisfies the
reflection identity. -/
theorem claim_C5_sigmoid (z : ℝ) :
    (0 ≤ z → sigmoid z = 1 / (1 + Real.exp (-z))) ∧
    (z < 0 → sigmoid z = Real.exp z / (1 + Real.exp z)) ∧
    0 < sigmoid z ∧ sigmoid z < 1 ∧
    sigmoid 0 = 1 / 2 ∧
    sigmoid z = 1 - sigmoid (-z) := by
  refine ⟨fun h => ?_, fun h => ?_, sigmoid_pos z, sigmoid_lt_one z,
    sigmoid_zero_eq, ?_⟩
  · unfold sigmoid
    rw [if_pos h]
  · unfold sigmoid
    rw [if_neg (not_le.mpr h)]
  · have h := sigmoid_neg_eq z
    linarith

/-- Witness for C5 at the inputs 1 and -1, one per branch. -/
theorem claim_C5_sigmoid_witness :
    sigmoid 1 = 1 / (1 + Real.exp (-1)) ∧
    sigmoid (-1) = Real.exp (-1) / (1 + Real.exp (-1)) :=
  ⟨(claim_C5_sigmoid 1).1 (by norm_num),
   (claim_C5_sigmoid (-1)).2.1 (by norm_num)⟩

/-- C8: the derived home-advantage feature is 1 when the stripped, lowercased
location is home, -1 for away, 0 otherwise; the listed case variants evaluate
accordingly, and an empty location yields output identical to the neutral
location through the whole pipeline. -/
theorem claim_C8_home_advantage (loc : String) :
    (py_lower (py_strip loc) = "home" → home_advantage_value loc = 1) ∧
    (py_lower (py_strip loc) = "away" → home_advantage_value loc = -1) ∧
    (py_lower (py_strip loc) ≠ "home" → py_lower (py_strip loc) ≠ "away" →
      home_advantage_value loc = 0) ∧
    home_advantage_value "HOME" = 1 ∧ home_advantage_value "Home" = 1 ∧
    home_advantage_value "home" = 1 ∧ home_advantage_value "AWAY" = -1 ∧
    home_advantage_value "away" = -1 ∧ home_advantage_value "" = 0 ∧
    home_advantage_value "neutral" = 0 ∧
    (∀ (A B : TeamDict) (names : List String) (cv : List ℚ) (intc : ℚ)
      (mv sv : List ℚ),
      predict_from_bundle A B "" names cv intc mv sv =
        predict_from_bundle A B "neutral" names cv intc mv sv) := by
  refine ⟨fun h => ?_, fun h => ?_, fun h1 h2 => ?_, by decide, by decide,
    by decide, by decide, by decide, by decide, by decide, ?_⟩
  · unfold home_advantage_value
    rw [if_pos h]
  · unfold home_advantage_value
    rw [if_neg (by simp [h]), if_pos h]
  · unfold home_advantage_value
    rw [if_neg h1, if_neg h2]
  · intro A B names cv intc mv sv
    have h : live_features A B "" = live_features A B "neutral" := by
      funext n
      unfold live_features
      rw [show home_advantage_value "" = home_advantage_value "neutral" by decide]
    simp only [predict_from_bundle, build_features_from_live, h]

/-- Witness for C8 at a mixed-case location. -/
theorem claim_C8_home_advantage_witness : home_advantage_value "hOmE" = 1 :=
  (claim_C8_home_advantage "hOmE").1 (by decide)

theorem sigmoid_one_bound : |sigmoid 1 - 0.7311| < 1 / 1000 := by
  have e1 := Real.exp_one_gt_d9
  have e2 := Real.exp_one_lt_d9
  have hep : 0 < Real.exp 1 := Real.exp_pos 1
  have h1p : 0 < 1 + Real.exp 1 := by positivity
  have hs : sigmoid 1 = Real.exp 1 / (1 + Real.exp 1) := by
    unfold sigmoid
    rw [if_pos zero_le_one, Real.exp_neg]
    rw [div_eq_div_iff (by positivity) (ne_of_gt h1p)]
    field_simp
    ring
  have hlb : (0.7301 : ℝ) < Real.exp 1 / (1 + Real.exp 1) := by
    rw [lt_div_iff₀ h1p]
    nlinarith
  have hub : Real.exp 1 / (1 + Real.exp 1) < 0.7321 := by
    rw [div_lt_iff₀ h1p]
    nlinarith
  rw [hs, abs_lt]
  constructor <;> nlinarith

/-- C2: on the two-feature example bundle with teams of adjusted offense 110
and 100 at a home location, the pipeline derives home_advantage 1 and
OffRating_diff 10, standardizes to [1, 10], scores z = 1, and returns
probability sigmoid 1, within 0.001 of 0.7311. -/
theorem claim_C2_end_to_end :
    (build_features_from_live teamX teamY "home" meta2.feature_names).2
      "home_advantage" = some 1 ∧
    (build_features_from_live teamX teamY "home" meta2.feature_names).2
      "OffRating_diff" = some 10 ∧
    (build_features_from_live teamX teamY "home" meta2.feature_names).1 = [1, 10] ∧
    standardize [1, 10] [0, 0] [1, 1] = [1, 10] ∧
    lin_score [1, 0] [1, 10] 0 = 1 ∧
    (predict_logistic_from_artifacts teamX teamY "home" meta2 coefs2 means2
      scales2).1 = sigmoid 1 ∧
    |(predict_logistic_from_artifacts teamX teamY "home" meta2 coefs2 means2
      scales2).1 - 0.7311| < 1 / 1000 := by
  have hb : (build_features_from_live teamX teamY "home" meta2.feature_names).1
      = [1, 10] := by
    simp +decide [build_features_from_live, live_features, safe_get, teamX,
      teamY, meta2, home_advantage_value]
    norm_num
  have hp : (predict_logistic_from_artifacts teamX teamY "home" meta2 coefs2
      means2 scales2).1 = sigmoid 1 := by
    unfold predict_logistic_from_artifacts
    simp only [load_logistic_artifacts, predict_from_bundle, score_probs]
    rw [hb]
    simp +decide [meta2, coefs2, means2, scales2, standardize, lin_score]
  refine ⟨?_, ?_, hb, ?_, ?_, hp, ?_⟩
  · simp +decide [build_features_from_live, live_features, home_advantage_value]
  · simp +decide [build_features_from_live, live_features, safe_get, teamX,
      teamY]
    norm_num
  · norm_num [standardize]
  · norm_num [lin_score]
  · rw [hp]
    exact sigmoid_one_bound

/-- C4: the built vector matches the feature-name list in length and order,
entry i is the derived value of the i-th name with 0 for unmatched names, and
an absent stat key resolves to the 0 default rather than an error. -/
theorem claim_C4_projection (A B : TeamDict) (loc : String)
    (names : List String) :
    (build_features_from_live A B loc names).1.length = names.length ∧
    (∀ i : ℕ, (build_features_from_live A B loc names).1[i]? =
      (names[i]?).map fun n =>
        ((build_features_from_live A B loc names).2 n).getD 0) ∧
    (∀ (d : TeamDict) (k : String), d k = none → safe_get d k = 0) := by
  refine ⟨by simp [build_features_from_live], fun i => ?_, fun d k h => ?_⟩
  · simp [build_features_from_live, List.getElem?_map]
  · simp [safe_get, h]

/-- Witness for C4: an absent key yields the 0 default. -/
theorem claim_C4_projection_witness : safe_get (fun _ => none) "AdjO" = 0 :=
  (claim_C4_projection teamX teamY "home" []).2.2 (fun _ => none) "AdjO" rfl

/- Helper lemmas about the standardize-and-score stage. -/

theorem standardize_cons (a m0 s0 : ℚ) (xs ms ss : List ℚ) :
    standardize (a :: xs) (m0 :: ms) (s0 :: ss) =
      (if s0 = 0 then 0 else (a - m0) / s0) :: standardize xs ms ss := rfl

theorem lin_score_cons (c0 v0 : ℚ) (cs vs : List ℚ) (intercept : ℚ) :
    lin_score (c0 :: cs) (v0 :: vs) intercept =
      c0 * v0 + lin_score cs vs intercept := by
  simp [lin_score]
  ring

theorem standardize_getElem? (x m s : List ℚ) (i : ℕ) :
    (standardize x m s)[i]? =
      x[i]?.bind fun v => m[i]?.bind fun mm => s[i]?.map fun ss =>
        if ss = 0 then 0 else (v - mm) / ss := by
  induction x generalizing m s i with
  | nil => simp [standardize]
  | cons a xs ih =>
    cases m with
    | nil => simp [standardize]
    | cons m0 ms =>
      cases s with
      | nil => simp [standardize]
      | cons s0 ss =>
        cases i with
        | zero => simp [standardize_cons]
        | succ j => simpa [standardize_cons] using ih ms ss j

theorem standardize_length (x m s : List ℚ) :
    (standardize x m s).length = min x.length (min m.length s.length) := by
  simp [standardize]

theorem standardize_set (x m s : List ℚ) (i : ℕ) (w : ℚ)
    (h : s[i]? = some 0) :
    standardize (x.set i w) m s = standardize x m s := by
  induction x generalizing m s i with
  | nil => simp
  | cons a xs ih =>
    cases m with
    | nil => simp [standardize]
    | cons m0 ms =>
      cases s with
      | nil => simp [standardize]
      | cons s0 ss =>
        cases i with
        | zero =>
          have h0 : s0 = 0 := by simpa using h
          simp [List.set, standardize_cons, h0]
        | succ j =>
          have hj : ss[j]? = some 0 := by simpa using h
          simp only [List.set, standardize_cons]
          rw [ih ms ss j hj]

theorem score_set_coef_zero (x m s cv : List ℚ) (intercept : ℚ) (i : ℕ) (w : ℚ)
    (h : cv[i]? = some 0) :
    lin_score cv (standardize (x.set i w) m s) intercept =
      lin_score cv (standardize x m s) intercept := by
  induction x generalizing m s cv i with
  | nil => simp
  | cons a xs ih =>
    cases m with
    | nil => simp [standardize]
    | cons m0 ms =>
      cases s with
      | nil => simp [standardize]
      | cons s0 ss =>
        cases cv with
        | nil => simp [lin_score]
        | cons c0 cs =>
          cases i with
          | zero =>
            have h0 : c0 = 0 := by simpa using h
            simp [List.set, standardize_cons, lin_score_cons, h0]
          | succ j =>
            have hj : cs[j]? = some 0 := by simpa using h
            simp only [List.set, standardize_cons, lin_score_cons]
            rw [ih ms ss cs j hj]

/-- C3: a zero scale forces the standardized value at that index to zero, and
the returned probability pair is unchanged when only the raw value at that
index changes, whatever the coefficient there. -/
theorem claim_C3_zero_scale_invariance (x m s c : List ℚ) (intercept : ℚ)
    (i : ℕ) (w : ℚ) (h : s[i]? = some 0) :
    (i < x.length → i < m.length → (standardize x m s)[i]? = some 0) ∧
    score_probs (x.set i w) m s c intercept =
      score_probs x m s c intercept := by
  constructor
  · intro hx hm
    cases hxv : x[i]? with
    | none => rw [List.getElem?_eq_none_iff] at hxv; omega
    | some v =>
      cases hmv : m[i]? with
      | none => rw [List.getElem?_eq_none_iff] at hmv; omega
      | some mm => simp [standardize_getElem?, hxv, hmv, h]
  · unfold score_probs
    rw [standardize_set x m s i w h]

/-- Witness for C3 with a zero scale at index 0 and raw value changed there. -/
theorem claim_C3_zero_scale_invariance_witness :
    (standardize [5, 1] [0, 0] [0, 1])[0]? = some 0 ∧
    score_probs ([5, 1].set 0 99) [0, 0] [0, 1] [3, 2] 0 =
      score_probs [5, 1] [0, 0] [0, 1] [3, 2] 0 := by
  have h := claim_C3_zero_scale_invariance [5, 1] [0, 0] [0, 1] [3, 2] 0 0 99
    (by norm_num)
  exact ⟨h.1 (by norm_num) (by norm_num), h.2⟩

/-- Counterexample to C7: on mismatched lengths the standardize-and-score
stage raises no error and silently truncates — the second raw value 7 and the
second coefficient 3 are dropped, and a score is still produced. -/
theorem claim_C7_cex :
    (standardize [5, 7] [0, 0] [1]).length = 1 ∧
    standardize [5, 7] [0, 0] [1] = [5] ∧
    lin_score [2, 3] (standardize [5, 7] [0, 0] [1]) 0 = 10 := by
  norm_num [standardize, lin_score]

/-- C7 as amended: the stage truncates to the shortest vector instead of
failing, and in the full pipeline the built vector and all loaded vectors have
exactly the feature-name-list length, so no truncation can occur there. -/
theorem claim_C7_truncation (x m s : List ℚ) (A B : TeamDict) (loc : String)
    (meta : ModelMeta) (coefs means scales : String → Option ℚ) :
    (standardize x m s).length = min x.length (min m.length s.length) ∧
    (build_features_from_live A B loc meta.feature_names).1.length =
      meta.feature_names.length ∧
    (load_logistic_artifacts meta coefs means scales).2.1.length =
      meta.feature_names.length ∧
    (load_logistic_artifacts meta coefs means scales).2.2.2.1.length =
      meta.feature_names.length ∧
    (load_logistic_artifacts meta coefs means scales).2.2.2.2.length =
      meta.feature_names.length := by
  refine ⟨standardize_length x m s, ?_, ?_, ?_, ?_⟩ <;>
    simp [build_features_from_live, load_logistic_artifacts]

/-- C6: the loaded coefficient, mean and scale vectors are aligned to the
feature-name order and length, a missing name defaults to coefficient 0, mean
0, scale 1, and a feature whose name is absent from the coefficient table
cannot change the returned probabilities whatever its raw value. -/
theorem claim_C6_artifact_alignment (meta : ModelMeta)
    (coefs means scales : String → Option ℚ) (names : List String)
    (cv : List ℚ) (intc : ℚ) (mv sv : List ℚ)
    (h : load_logistic_artifacts meta coefs means scales =
      (names, cv, intc, mv, sv)) :
    names = meta.feature_names ∧
    cv.length = names.length ∧ mv.length = names.length ∧
    sv.length = names.length ∧
    (∀ (i : ℕ) (n : String), names[i]? = some n →
      (coefs n = none → cv[i]? = some 0) ∧
      (means n = none → mv[i]? = some 0) ∧
      (scales n = none → sv[i]? = some 1)) ∧
    (∀ (i : ℕ) (n : String) (x : List ℚ) (w : ℚ),
      names[i]? = some n → coefs n = none →
      score_probs (x.set i w) mv sv cv intc =
        score_probs x mv sv cv intc) := by
  simp only [load_logistic_artifacts, Prod.mk.injEq] at h
  obtain ⟨h1, h2, h3, h4, h5⟩ := h
  subst h1; subst h2; subst h3; subst h4; subst h5
  refine ⟨rfl, by simp, by simp, by simp, fun i n hn => ?_, fun i n x w hn hc => ?_⟩
  · refine ⟨fun hc => ?_, fun hm => ?_, fun hs => ?_⟩
    · simp [List.getElem?_map, hn, hc]
    · simp [List.getElem?_map, hn, hm]
    · simp [List.getElem?_map, hn, hs]
  · unfold score_probs
    rw [score_set_coef_zero]
    rw [List.getElem?_map, hn]
    simp [hc]

/-- Witness for C6: with name f2 absent from the coefficient table, changing
the raw value at index 1 leaves the probabilities unchanged. -/
theorem claim_C6_artifact_alignment_witness :
    score_probs ([5, 7].set 1 99) [0, 0] [1, 1] [2, 0] 0 =
      score_probs [5, 7] [0, 0] [1, 1] [2, 0] 0 :=
  (claim_C6_artifact_alignment meta6 coefs6 table_none table_none
    ["f1", "f2"] [2, 0] 0 [0, 0] [1, 1] (by rfl)).2.2.2.2.2
    1 "f2" [5, 7] 99 (by rfl) (by rfl)

/- Helper lemmas about swapping the two teams. -/

set_option maxHeartbeats 1600000 in
theorem live_features_swap (A B : TeamDict) (loc loc2 : String) (n : String)
    (hh : home_advantage_value loc2 = - home_advantage_value loc)
    (h1 : n ≠ "home_x_offrat") (h2 : n ≠ "home_x_defrat") :
    live_features B A loc2 n = (live_features A B loc n).map fun q => -q := by
  by_cases e1 : n = "home_advantage"
  · subst e1; simp +decide [live_features, hh]
  by_cases e2 : n = "OffRating_diff"
  · subst e2; simp +decide [live_features, neg_sub]
  by_cases e3 : n = "DefRating_diff"
  · subst e3; simp +decide [live_features, neg_sub]
  by_cases e4 : n = "Off_eFG_diff"
  · subst e4; simp +decide [live_features, neg_sub]
  by_cases e5 : n = "Off_3P%_diff"
  · subst e5; simp +decide [live_features, neg_sub]
  by_cases e6 : n = "Off_2P%_diff"
  · subst e6; simp +decide [live_features, neg_sub]
  by_cases e7 : n = "Off_FT%_diff"
  · subst e7; simp +decide [live_features, neg_sub]
  by_cases e8 : n = "Off_3PA%_diff"
  · subst e8; simp +decide [live_features, neg_sub]
  by_cases e9 : n = "Off_TOV%_diff"
  · subst e9; simp +decide [live_features, neg_sub]
  by_cases e10 : n = "Off_FTR_diff"
  · subst e10; simp +decide [live_features, neg_sub]
  by_cases e11 : n = "Off_A%_diff"
  · subst e11; simp +decide [live_features, neg_sub]
  by_cases e12 : n = "Off_OR%_diff"
  · subst e12; simp +decide [live_features, neg_sub]
  by_cases e13 : n = "Def_eFG_allowed_diff"
  · subst e13; simp +decide [live_features, neg_sub]
  by_cases e14 : n = "Def_3P%_allowed_diff"
  · subst e14; simp +decide [live_features, neg_sub]
  by_cases e15 : n = "Def_2P%_allowed_diff"
  · subst e15; simp +decide [live_features, neg_sub]
  by_cases e16 : n = "Def_FT%_allowed_diff"
  · subst e16; simp +decide [live_features, neg_sub]
  by_cases e17 : n = "Def_3PA%_allowed_diff"
  · subst e17; simp +decide [live_features, neg_sub]
  by_cases e18 : n = "Def_TOV%_diff"
  · subst e18; simp +decide [live_features, neg_sub]
  by_cases e19 : n = "Def_DR%_diff"
  · subst e19; simp +decide [live_features, neg_sub]
  by_cases e20 : n = "Def_BLK%_diff"
  · subst e20; simp +decide [live_features, neg_sub]
  by_cases e21 : n = "Def_STL%_diff"
  · subst e21; simp +decide [live_features, neg_sub]
  by_cases e22 : n = "Poss_diff"
  · subst e22; simp +decide [live_features, neg_sub]
  simp [live_features, e1, e2, e3, e4, e5, e6, e7, e8, e9, e10, e11, e12,
    e13, e14, e15, e16, e17, e18, e19, e20, e21, e22, h1, h2]

theorem live_getD_swap (A B : TeamDict) (loc loc2 : String) (n : String)
    (hh : home_advantage_value loc2 = - home_advantage_value loc)
    (h1 : n ≠ "home_x_offrat") (h2 : n ≠ "home_x_defrat") :
    ((live_features B A loc2) n).getD 0 = -(((live_features A B loc) n).getD 0) := by
  rw [live_features_swap A B loc loc2 n hh h1 h2]
  cases live_features A B loc n <;> simp

theorem zip_sum_swap (names : List String) (g g2 : String → ℚ)
    (cv m s : List ℚ)
    (hm : ∀ mm ∈ m, mm = 0)
    (hc : ∀ p ∈ names.zip cv,
      (p.1 = "home_x_offrat" ∨ p.1 = "home_x_defrat") → p.2 = 0)
    (hg : ∀ n, n ≠ "home_x_offrat" → n ≠ "home_x_defrat" → g2 n = - g n) :
    lin_score cv (standardize (names.map g2) m s) 0 =
      - lin_score cv (standardize (names.map g) m s) 0 := by
  induction names generalizing cv m s with
  | nil => simp [lin_score, standardize]
  | cons n ns ih =>
    cases cv with
    | nil => simp [lin_score]
    | cons c0 cs =>
      cases m with
      | nil => simp [lin_score, standardize]
      | cons m0 ms =>
        cases s with
        | nil => simp [lin_score, standardize]
        | cons s0 ss =>
          have hm0 : m0 = 0 := hm m0 (List.mem_cons_self m0 ms)
          have hmt : ∀ mm ∈ ms, mm = 0 := fun mm hmm =>
            hm mm (List.mem_cons_of_mem m0 hmm)
          have hct : ∀ p ∈ ns.zip cs,
              (p.1 = "home_x_offrat" ∨ p.1 = "home_x_defrat") → p.2 = 0 :=
            fun p hp => hc p (List.mem_cons_of_mem (n, c0) hp)
          have ihh := ih cs ms ss hmt hct
          by_cases hint : n = "home_x_offrat" ∨ n = "home_x_defrat"
          · have hc0 : c0 = 0 := hc (n, c0) (List.mem_cons_self (n, c0) (ns.zip cs)) hint
            rw [List.map_cons, List.map_cons, standardize_cons,
              standardize_cons, lin_score_cons, lin_score_cons, ihh, hc0]
            ring
          · push_neg at hint
            have hgn : g2 n = - g n := hg n hint.1 hint.2
            rw [List.map_cons, List.map_cons, standardize_cons,
              standardize_cons, lin_score_cons, lin_score_cons, ihh, hgn, hm0]
            by_cases hs0 : s0 = 0
            · rw [if_pos hs0, if_pos hs0]
              ring
            · rw [if_neg hs0, if_neg hs0]
              ring

/-- C1 as amended: swapping the teams and negating the location's home/away
sense gives probability_A(swapped) = probability_B(original), provided the
intercept is 0, every standardization mean is 0 and the coefficients of the
interaction features home_x_offrat and home_x_defrat are 0; those interaction
terms are invariant, not sign-flipping, under the swap, and nonzero means or
intercept also break the symmetry. -/
theorem claim_C1_swap_amended (A B : TeamDict) (loc loc2 : String)
    (names : List String) (cv mv sv : List ℚ)
    (hh : home_advantage_value loc2 = - home_advantage_value loc)
    (hm : ∀ mm ∈ mv, mm = 0)
    (hc : ∀ p ∈ names.zip cv,
      (p.1 = "home_x_offrat" ∨ p.1 = "home_x_defrat") → p.2 = 0) :
    (predict_from_bundle B A loc2 names cv 0 mv sv).1 =
      (predict_from_bundle A B loc names cv 0 mv sv).2.1 := by
  have hg : ∀ n, n ≠ "home_x_offrat" → n ≠ "home_x_defrat" →
      ((live_features B A loc2) n).getD 0 = -(((live_features A B loc) n).getD 0) :=
    fun n h1 h2 => live_getD_swap A B loc loc2 n hh h1 h2
  have hz := zip_sum_swap names (fun n => ((live_features A B loc) n).getD 0)
    (fun n => ((live_features B A loc2) n).getD 0) cv mv sv hm hc hg
  simp only [predict_from_bundle, build_features_from_live, score_probs]
  rw [hz]
  push_cast
  rw [sigmoid_neg_eq]

/-- Witness for C1 as amended, on a one-feature rating-difference bundle. -/
theorem claim_C1_swap_amended_witness :
    (predict_from_bundle teamY teamX "away" ["OffRating_diff"] [2] 0 [0] [1]).1 =
      (predict_from_bundle teamX teamY "home" ["OffRating_diff"] [2] 0 [0] [1]).2.1 :=
  claim_C1_swap_amended teamX teamY "home" "away" ["OffRating_diff"] [2] [0] [1]
    (by decide) (by decide) (by decide)

/-- Counterexample to C1: on a bundle whose only feature is the interaction
term home_x_offrat (intercept 0, mean 0, scale 1, coefficient 1), swapping the
teams and negating the location leaves z = 10 unchanged, so
probability_A(swapped) = sigmoid 10 differs from probability_B(original)
= 1 - sigmoid 10. -/
theorem claim_C1_swap_cex :
    (predict_from_bundle teamY teamX "away" ["home_x_offrat"] [1] 0 [0] [1]).1 ≠
      (predict_from_bundle teamX teamY "home" ["home_x_offrat"] [1] 0 [0] [1]).2.1 := by
  have hbL : (build_features_from_live teamY teamX "away" ["home_x_offrat"]).1
      = [10] := by
    simp +decide [build_features_from_live, live_features, safe_get, teamX,
      teamY, home_advantage_value]
    norm_num
  have hbR : (build_features_from_live teamX teamY "home" ["home_x_offrat"]).1
      = [10] := by
    simp +decide [build_features_from_live, live_features, safe_get, teamX,
      teamY, home_advantage_value]
    norm_num
  have hL : (predict_from_bundle teamY teamX "away" ["home_x_offrat"] [1] 0
      [0] [1]).1 = sigmoid 10 := by
    simp only [predict_from_bundle, score_probs]
    rw [hbL]
    norm_num [standardize, lin_score]
  have hR : (predict_from_bundle teamX teamY "home" ["home_x_offrat"] [1] 0
      [0] [1]).2.1 = 1 - sigmoid 10 := by
    simp only [predict_from_bundle, score_probs]
    rw [hbR]
    norm_num [standardize, lin_score]
  rw [hL, hR]
  intro h
  have hgt : 1 / 2 < sigmoid 10 := half_lt_sigmoid 10 (by norm_num)
  linarith

/-- Counterexample to C9: apply_home_court at a home location does not leave
its arguments unchanged — the final state of the first team mapping has its
adjusted offense rescaled from 100 to 101.4. -/
theorem claim_C9_pure_cex :
    (apply_home_court statsA statsB "home").map (fun p => p.1 "AdjO") ≠
      some (statsA "AdjO") := by
  have h : (apply_home_court statsA statsB "home").map (fun p => p.1 "AdjO") =
      some (some (507 / 5)) := by
    simp +decide [apply_home_court, mul_key, statsA, statsB, HOME_COURT_ADV,
      py_lower]
    norm_num
  rw [h]
  simp +decide [statsA]
  norm_num

/-- C9 as amended: all three adjustors are deterministic functions of their
arguments, and they leave state unchanged outside their trigger conditions
(non-home/away location, non-tournament or unrecorded matchup, small
experience gap); but apply_home_court rescales the team stat mappings in place
for home/away locations, and adjust_for_upset_trends overwrites win-probability
entries for recorded tournament upset matchups; only apply_experience_bonus
never mutates its inputs. -/
theorem claim_C9_adjustors_amended :
    (∀ (A B : NumDict) (loc : String),
      py_lower loc ≠ "home" → py_lower loc ≠ "away" →
      apply_home_court A B loc = some (A, B)) ∧
    (∀ (tA tB : UTeam) (w : NumDict) (r : String),
      ¬(tA.seed.getD 0 ≠ 0 ∧ tB.seed.getD 0 ≠ 0 ∧
        py_lower r ∈ tournament_rounds) →
      adjust_for_upset_trends tA tB w r = w) ∧
    (∀ (tA tB : UTeam) (w : NumDict) (r : String),
      upset_lookup (max (tA.seed.getD 0) (tB.seed.getD 0),
        min (tA.seed.getD 0) (tB.seed.getD 0)) = none →
      adjust_for_upset_trends tA tB w r = w) ∧
    (∀ (A B : NumDict) (pa pb : ℚ),
      |(A "Experience").getD 0 - (B "Experience").getD 0| <
        EXPERIENCE_THRESHOLD →
      apply_experience_bonus A B pa pb = (pa, pb)) ∧
    (apply_home_court statsA statsB "home").map (fun p => p.1 "AdjO") =
      some (some (507 / 5)) ∧
    adjust_for_upset_trends u12 u5 empty_probs "round1" "Cinderella" =
      some (7 / 20) ∧
    adjust_for_upset_trends u12 u5 empty_probs "round1" "Goliath" =
      some (13 / 20) ∧
    empty_probs "Cinderella" = none := by
  refine ⟨fun A B loc hn1 hn2 => ?_, fun tA tB w r hn => ?_,
    fun tA tB w r hn => ?_, fun A B pa pb hn => ?_, ?_, ?_, ?_, rfl⟩
  · unfold apply_home_court
    rw [if_neg hn1, if_neg hn2]
  · unfold adjust_for_upset_trends
    rw [if_neg hn]
  · unfold adjust_for_upset_trends
    by_cases hcond : tA.seed.getD 0 ≠ 0 ∧ tB.seed.getD 0 ≠ 0 ∧
        py_lower r ∈ tournament_rounds
    · rw [if_pos hcond]
      by_cases hgt : tA.seed.getD 0 > tB.seed.getD 0
      · rw [if_pos hgt, if_pos hgt]
        rw [max_eq_left hgt.le, min_eq_right hgt.le] at hn
        simp only [hn]
      · rw [if_neg hgt, if_neg hgt]
        push_neg at hgt
        rw [max_eq_right hgt, min_eq_left hgt] at hn
        simp only [hn]
    · rw [if_neg hcond]
  · unfold apply_experience_bonus
    rw [if_neg (not_le.mpr hn)]
  · simp +decide [apply_home_court, mul_key, statsA, statsB, HOME_COURT_ADV,
      py_lower]
    norm_num
  · simp +decide [adjust_for_upset_trends, u12, u5, empty_probs, set_prob,
      upset_lookup, HISTORICAL_UPSETS, tournament_rounds, py_lower]
    norm_num
  · simp +decide [adjust_for_upset_trends, u12, u5, empty_probs, set_prob,
      upset_lookup, HISTORICAL_UPSETS, tournament_rounds, py_lower]
    norm_num

/-- Witness for C9 as amended: a neutral location leaves both stat mappings
unchanged. -/
theorem claim_C9_adjustors_amended_witness :
    apply_home_court statsA statsB "neutral" = some (statsA, statsB) :=
  claim_C9_adjustors_amended.1 statsA statsB "neutral" (by decide) (by decide)

/- Helper lemma for non-numeric stat values. -/

theorem safe_get_erase {d : TeamDict} {k : String}
    (h : d k = some PyVal.nonNum) (k2 : String) (dflt : ℚ) :
    safe_get (dict_erase d k) k2 dflt = safe_get d k2 dflt := by
  by_cases hk : k2 = k
  · subst hk
    simp [safe_get, dict_erase, h]
  · simp [safe_get, dict_erase, hk]

/-- C10: a stat value that float() cannot convert is treated exactly as an
absent key — the whole feature builder and the prediction are unchanged when
the key is erased — so prediction never fails on non-numeric stat values. -/
theorem claim_C10_non_numeric (A B : TeamDict) (loc : String)
    (names : List String) (kA kB : String) (meta : ModelMeta)
    (coefs means scales : String → Option ℚ)
    (hA : A kA = some PyVal.nonNum) (hB : B kB = some PyVal.nonNum) :
    build_features_from_live A B loc names =
      build_features_from_live (dict_erase A kA) B loc names ∧
    build_features_from_live A B loc names =
      build_features_from_live A (dict_erase B kB) loc names ∧
    predict_logistic_from_artifacts A B loc meta coefs means scales =
      predict_logistic_from_artifacts (dict_erase A kA) B loc meta coefs
        means scales := by
  have hfA : live_features (dict_erase A kA) B loc = live_features A B loc := by
    funext n
    unfold live_features
    simp only [safe_get_erase hA]
  have hfB : live_features A (dict_erase B kB) loc = live_features A B loc := by
    funext n
    unfold live_features
    simp only [safe_get_erase hB]
  refine ⟨?_, ?_, ?_⟩
  · simp only [build_features_from_live, hfA]
  · simp only [build_features_from_live, hfB]
  · simp only [predict_logistic_from_artifacts, predict_from_bundle,
      build_features_from_live, hfA]

/-- Witness for C10: a team whose adjusted-offense value is non-convertible
predicts identically to the same team with the key erased. -/
theorem claim_C10_non_numeric_witness :
    predict_logistic_from_artifacts teamNN teamMix "home" meta2 coefs2 means2
        scales2 =
      predict_logistic_from_artifacts (dict_erase teamNN "AdjO") teamMix "home"
        meta2 coefs2 means2 scales2 :=
  (claim_C10_non_numeric teamNN teamMix "home" meta2.feature_names "AdjO"
    "Tempo" meta2 coefs2 means2 scales2 rfl rfl).2.2

end CBB
